import Mathlib

/-!
Verification of the SkyCast weather-query service against its specification.

This file gives a shallow embedding, in Lean 4, of the parts of the SkyCast
code base that the specification talks about:

* `lib/weatherService.ts` — date-range validation, location matching,
  and the CRUD operations over weather-query records;
* `lib/exportService.ts` — XML escaping and the fallback XML generator;
* `pages/api/weather-queries/index.ts` and `pages/api/export.ts` — the
  pagination caps of the interactive-list and export request handlers.

Modelling conventions:

* Instants (JavaScript `Date` values) are integers counting milliseconds on a
  single timezone-free timeline; a calendar date string parses to the instant
  of its midnight.  `parseISO` is modelled for `yyyy-MM-dd` strings, the only
  shape this application produces for its date ranges.
* The MongoDB collections are modelled as lists of records inside a `DB`
  value; each store operation is a pure function from a `DB` to a `DB` plus
  its result, fallible operations returning `Except String`.
* The outcomes of the external fetches (`getCurrentWeather`, `getForecast`)
  and of the Fuse.js scorer are parameters of the model (an `Env` value),
  since they depend on the network; the service logic is a function of them.
-/

/-! ## Calendar arithmetic

`daysFromCivil`/`civilFromDays` convert between a Gregorian calendar date and
a day number (days since 1970-01-01), following the standard civil-calendar
algorithms.  They model the calendar arithmetic done by the JavaScript `Date`
object.  All divisions are floor divisions (`Int.fdiv`). -/

structure Civil where
  year : Int
  month : Int
  day : Int
deriving DecidableEq, Repr

/-- Day number (days since 1970-01-01) of a civil date.  The formula is linear
in `day`, which also models JavaScript date rollover (e.g. setting day 32 of
January lands in February), as `Date.setFullYear`/`setDate` do. -/
def daysFromCivil (y m d : Int) : Int :=
  let y' : Int := if m ≤ 2 then y - 1 else y
  let era : Int := Int.fdiv y' 400
  let yoe : Int := y' - era * 400
  let mp : Int := if 2 < m then m - 3 else m + 9
  let doy : Int := Int.fdiv (153 * mp + 2) 5 + d - 1
  let doe : Int := yoe * 365 + Int.fdiv yoe 4 - Int.fdiv yoe 100 + doy
  era * 146097 + doe - 719468

/-- Civil date of a day number (inverse of `daysFromCivil`). -/
def civilFromDays (z : Int) : Civil :=
  let z' : Int := z + 719468
  let era : Int := Int.fdiv z' 146097
  let doe : Int := z' - era * 146097
  let yoe : Int := Int.fdiv (doe - Int.fdiv doe 1460 + Int.fdiv doe 36524 - Int.fdiv doe 146096) 365
  let y : Int := yoe + era * 400
  let doy : Int := doe - (365 * yoe + Int.fdiv yoe 4 - Int.fdiv yoe 100)
  let mp : Int := Int.fdiv (5 * doy + 2) 153
  let d : Int := doy - Int.fdiv (153 * mp + 2) 5 + 1
  let m : Int := if mp < 10 then mp + 3 else mp - 9
  { year := if m ≤ 2 then y + 1 else y, month := m, day := d }

def msPerDay : Int := 86400000

/-! ## ISO calendar-date parsing (`parseISO` from date-fns, restricted to the
`yyyy-MM-dd` date strings this application produces).  A string parses to the
instant of its midnight; a malformed or out-of-range date yields `none`
(date-fns' `Invalid Date`, rejected by its `isValid`). -/

def isLeapYear (y : Int) : Bool :=
  y % 4 = 0 && (¬ y % 100 = 0 || y % 400 = 0)

def daysInMonth (y m : Int) : Int :=
  if m = 2 then (if isLeapYear y then 29 else 28)
  else if m = 4 || m = 6 || m = 9 || m = 11 then 30
  else 31

/-- Split a character list on a separator character. -/
def splitOnChar (sep : Char) : List Char → List (List Char)
  | [] => [[]]
  | c :: cs =>
    let rest := splitOnChar sep cs
    if c = sep then [] :: rest
    else
      match rest with
      | h :: t => (c :: h) :: t
      | [] => [[c]]

/-- Parse a non-empty all-digit character list as a natural number. -/
def parseDigits : List Char → Option Nat
  | [] => none
  | cs => cs.foldl (fun acc c =>
      match acc with
      | none => none
      | some n => if c.isDigit then some (n * 10 + (c.toNat - 48)) else none)
      (some 0)

/-- `parseISO` on a `yyyy-MM-dd` calendar-date string: the instant (in ms) of
that date's midnight, or `none` when the string is malformed or the date is
out of range. -/
def parseISO (s : String) : Option Int :=
  match splitOnChar '-' s.data with
  | [ys, ms, ds] =>
    if ys.length = 4 && ms.length = 2 && ds.length = 2 then
      match parseDigits ys, parseDigits ms, parseDigits ds with
      | some y, some m, some d =>
        if 1 ≤ m && m ≤ 12 && 1 ≤ d && (d : Int) ≤ daysInMonth y m then
          some (daysFromCivil y m d * msPerDay)
        else none
      | _, _, _ => none
    else none
  | _ => none

/-- Zero-pad a natural number to two digits. -/
def pad2 (n : Int) : String :=
  if 0 ≤ n && n < 10 then "0" ++ toString n else toString n

/-- `format(date, "yyyy-MM-dd")` from date-fns: the civil date of an instant. -/
def formatDate (t : Int) : String :=
  let c := civilFromDays (Int.fdiv t msPerDay)
  toString c.year ++ "-" ++ pad2 c.month ++ "-" ++ pad2 c.day

/-- The instant one year before `t`: JavaScript
`d.setFullYear(d.getFullYear() - 1)`, which keeps month, day and time of day
and decrements the year (rolling Feb 29 over into Mar 1 in a non-leap year,
which the linear `daysFromCivil` reproduces). -/
def yearAgo (t : Int) : Int :=
  let c := civilFromDays (Int.fdiv t msPerDay)
  daysFromCivil (c.year - 1) c.month c.day * msPerDay + Int.fmod t msPerDay

/-! ## The date-range validator (`WeatherService.validateDateRange`) -/

structure DateRange where
  startDate : String
  endDate : String
deriving DecidableEq, Repr

structure DateRangeValidation where
  isValid : Bool
  errors : List String
  adjustedRange : DateRange
deriving DecidableEq, Repr

/-- `WeatherService.validateDateRange`, parametrised by the current instant
`now` (the JavaScript `new Date()`).  `fiveDaysFromNow` is
`d.setDate(d.getDate() + 5)`, i.e. exactly five civil days later, which on
this timezone-free timeline is `now + 5 * msPerDay` (by linearity of
`daysFromCivil` in the day).  The comparisons `isAfter`/`isBefore` are strict
order comparisons of instants. -/
def validateDateRange (now : Int) (dateRange : DateRange) : DateRangeValidation :=
  let startP := parseISO dateRange.startDate
  let endP := parseISO dateRange.endDate
  let parseErrors : List String :=
    (if startP.isNone then ["Start date is invalid"] else []) ++
    (if endP.isNone then ["End date is invalid"] else [])
  let errors : List String :=
    if parseErrors.isEmpty then
      match startP, endP with
      | some start, some stop =>
        (if stop < start then ["Start date cannot be after end date"] else []) ++
        (if start < yearAgo now then
          ["Historical weather data is limited to the past year"] else []) ++
        (if now + 5 * msPerDay < start then
          ["Weather forecasts are only available for the next 5 days with OpenWeatherMap free tier"]
         else []) ++
        (if now + 5 * msPerDay < stop then
          ["For long-term planning beyond 5 days, consider using current weather patterns and seasonal trends"]
         else [])
      | _, _ => parseErrors
    else parseErrors
  let adjustedRange : DateRange :=
    if errors.isEmpty then dateRange
    else { startDate := formatDate now, endDate := formatDate (now + 5 * msPerDay) }
  { isValid := errors.isEmpty, errors := errors, adjustedRange := adjustedRange }

example : parseISO "1970-01-01" = some 0 := by decide
example : parseISO "1969-12-31" = some (-86400000) := by decide
example : parseISO "2000-02-29" = some (951782400000) := by decide
example : parseISO "2001-02-29" = none := by decide
example : formatDate 951782400000 = "2000-02-29" := by decide
example : yearAgo (951782400000 + 7) = 920246400000 + 7 := by decide

/-! ## Weather data model (`types/weather.ts`, shapes produced by
`utils/weatherApi.ts`) -/

structure WeatherData where
  name : String
  country : String
  temperature : Int
  description : String
  icon : String
  feelsLike : Int
  humidity : Int
  pressure : Int
  windSpeed : Int
  windDirection : Int
  visibility : Int
  clouds : Int
  sunrise : Int
  sunset : Int
deriving DecidableEq, Repr

structure ForecastItem where
  date : String
  temperatureMin : Int
  temperatureMax : Int
  description : String
  icon : String
  humidity : Int
  windSpeed : Int
  pop : Int
deriving DecidableEq, Repr

structure ForecastData where
  cityName : String
  cityCountry : String
  list : List ForecastItem
deriving DecidableEq, Repr

structure Coordinates where
  lat : Int
  lon : Int
deriving DecidableEq, Repr

structure LocationMatch where
  name : String
  country : String
  state : Option String
  coordinates : Coordinates
  confidence : Rat
deriving DecidableEq, Repr

structure WeatherQuery where
  _id : String
  location : String
  locationNormalized : String
  coordinates : Coordinates
  dateRange : DateRange
  weatherData : WeatherData
  forecastData : Option ForecastData
  createdAt : Int
  updatedAt : Int
  tags : List String
  userNotes : String
deriving DecidableEq, Repr

structure AIInsight where
  _id : String
  queryId : String
  location : String
  insight : String
  recommendations : List String
  weatherSummary : String
  travelAdvice : Option String
  clothingRecommendations : Option (List String)
  activitySuggestions : Option (List String)
  generatedAt : Int
  model : String
deriving DecidableEq, Repr

/-- The two MongoDB collections (`weather_queries` and `ai_insights`). -/
structure DB where
  queries : List WeatherQuery
  insights : List AIInsight
deriving DecidableEq, Repr

deriving instance DecidableEq for Except

/-! ## Location matching (`WeatherService.validateLocation`) -/

structure GazEntry where
  name : String
  country : String
  state : Option String
deriving DecidableEq, Repr

/-- The `COMMON_LOCATIONS` constant of `lib/weatherService.ts` ("Common city
names for fuzzy matching"). -/
def COMMON_LOCATIONS : List GazEntry := [
  { name := "New York", country := "US", state := some "NY" },
  { name := "London", country := "GB", state := none },
  { name := "Tokyo", country := "JP", state := none },
  { name := "Paris", country := "FR", state := none },
  { name := "Sydney", country := "AU", state := none },
  { name := "Los Angeles", country := "US", state := some "CA" },
  { name := "Chicago", country := "US", state := some "IL" },
  { name := "Toronto", country := "CA", state := none },
  { name := "Berlin", country := "DE", state := none },
  { name := "Mumbai", country := "IN", state := none },
  { name := "Singapore", country := "SG", state := none },
  { name := "Dubai", country := "AE", state := none },
  { name := "São Paulo", country := "BR", state := none },
  { name := "Mexico City", country := "MX", state := none },
  { name := "Moscow", country := "RU", state := none }]

structure FuseResult where
  item : GazEntry
  score : Rat
deriving DecidableEq, Repr

/-- Model of a Fuse.js search over an indexed collection: every indexed entry
is scored against the pattern by an abstract scorer (`none` = no match, `some
s` = match with distance score `s`) and the matching entries are returned
with their scores.  Fuse additionally ranks the results; the order is left as
the collection order here, which is irrelevant to the claims below because
the service only ever searches an empty index. -/
def fuseSearch (scorer : String → GazEntry → Option Rat)
    (collection : List GazEntry) (pattern : String) : List FuseResult :=
  collection.filterMap fun entry =>
    (scorer pattern entry).map fun s => { item := entry, score := s }

/-- The collection indexed by the Fuse instance built in the `WeatherService`
constructor: `new Fuse([], { keys: ..., threshold: 0.3 })` — the empty list
(`COMMON_LOCATIONS` is never registered with it). -/
def serviceFuseCollection : List GazEntry := []

/-- `WeatherService.validateLocation`.  `currentWeather` is the outcome of
the authoritative `getCurrentWeather(location)` call. -/
def validateLocation (scorer : String → GazEntry → Option Rat)
    (currentWeather : Except String WeatherData) (location : String) :
    List LocationMatch :=
  match currentWeather with
  | .ok weatherData =>
    [{ name := weatherData.name, country := weatherData.country, state := none,
       coordinates := { lat := 0, lon := 0 }, confidence := 1 }]
  | .error _ =>
    (fuseSearch scorer serviceFuseCollection location).map fun result =>
      { name := result.item.name, country := result.item.country,
        state := result.item.state, coordinates := { lat := 0, lon := 0 },
        confidence := 1 - result.score }

/-- Collapse runs of whitespace to single spaces (JavaScript
`.replace(/\s+/g, " ")`); the flag records whether the previous character was
whitespace. -/
def collapseWS : Bool → List Char → List Char
  | _, [] => []
  | prevWS, c :: rest =>
    if c.isWhitespace then
      if prevWS then collapseWS true rest else ' ' :: collapseWS true rest
    else c :: collapseWS false rest

/-- `WeatherService.normalizeLocation`:
`location.toLowerCase().trim().replace(/\s+/g, " ")`. -/
def normalizeLocation (location : String) : String :=
  let lowered := location.data.map Char.toLower
  let trimmed := ((lowered.dropWhile Char.isWhitespace).reverse.dropWhile
    Char.isWhitespace).reverse
  ⟨collapseWS false trimmed⟩

example : normalizeLocation "  New   YORK " = "new york" := by decide
example : validateLocation (fun _ _ => some ((1 : Rat) / 10)) (.error "404") "Londn" = [] := rfl

/-! ## The environment of one store operation

The outcomes of the external calls the operation may make, plus the current
instant and the `_id` MongoDB would assign to an inserted document. -/

structure Env where
  now : Int
  newId : String
  scorer : String → GazEntry → Option Rat
  currentWeather : String → Except String WeatherData
  forecast : String → Except String ForecastData

/-! ## CRUD operations (`WeatherService`) -/

structure CreateWeatherQueryRequest where
  location : String
  dateRange : DateRange
  userNotes : Option String
  tags : Option (List String)
deriving Repr

/-- `WeatherService.createWeatherQuery`.  On success the new document is
appended to the `queries` collection; every error path leaves the database
untouched (the insert is the last step). -/
def createWeatherQuery (env : Env) (db : DB) (request : CreateWeatherQueryRequest) :
    Except String (DB × WeatherQuery) :=
  let dateValidation := validateDateRange env.now request.dateRange
  if !dateValidation.isValid then
    .error ("Invalid date range: " ++ String.intercalate ", " dateValidation.errors)
  else
    match validateLocation env.scorer (env.currentWeather request.location)
        request.location with
    | [] =>
      .error ("Location \"" ++ request.location ++
        "\" not found. Please check the spelling and try again.")
    | bestMatch :: _ =>
      let finalLocation :=
        if mkRat 4 5 < bestMatch.confidence then bestMatch.name else request.location
      match env.currentWeather finalLocation with
      | .error e => .error ("Failed to fetch weather data: " ++ e)
      | .ok weatherData =>
        let forecastData := (env.forecast finalLocation).toOption
        let weatherQuery : WeatherQuery :=
          { _id := env.newId,
            location := request.location,
            locationNormalized := normalizeLocation finalLocation,
            coordinates := bestMatch.coordinates,
            dateRange := dateValidation.adjustedRange,
            weatherData := weatherData,
            forecastData := forecastData,
            createdAt := env.now,
            updatedAt := env.now,
            tags := request.tags.getD [],
            userNotes := request.userNotes.getD "" }
        .ok ({ db with queries := db.queries ++ [weatherQuery] }, weatherQuery)

structure UpdateWeatherQueryRequest where
  location : Option String
  dateRange : Option DateRange
  userNotes : Option String
  tags : Option (List String)
deriving Repr

/-- JavaScript truthiness of an optional string (`if (updates.location)`):
present and non-empty. -/
def strTruthy : Option String → Bool
  | some s => !(s = "")
  | none => false

/-- The location-dependent fields of the update document built by
`updateWeatherQuery` when a location is supplied. -/
structure LocUpdate where
  location : String
  locationNormalized : String
  coordinates : Coordinates
  weatherData : WeatherData
  forecastData : Option ForecastData
deriving DecidableEq, Repr

/-- Apply the update document (`$set`) to one record.  `forecastData` is only
set when the forecast re-fetch succeeded (`if (forecastData) { ... }`), so a
failed re-fetch leaves the previously stored forecast in place. -/
def applyUpdate (now : Int) (lu : Option LocUpdate) (dr : Option DateRange)
    (notes : Option String) (tags : Option (List String))
    (r : WeatherQuery) : WeatherQuery :=
  let r := { r with updatedAt := now }
  let r :=
    match lu with
    | some l =>
      { r with location := l.location, locationNormalized := l.locationNormalized,
               coordinates := l.coordinates, weatherData := l.weatherData,
               forecastData :=
                 match l.forecastData with
                 | some f => some f
                 | none => r.forecastData }
    | none => r
  let r := match dr with | some d => { r with dateRange := d } | none => r
  let r := match notes with | some n => { r with userNotes := n } | none => r
  match tags with | some t => { r with tags := t } | none => r

/-- `WeatherService.updateWeatherQuery`.  Returns the post-update document
(`findOneAndUpdate` with `returnDocument: "after"`), or `none` when no
document has the given id.  MongoDB `_id`s are unique, so the map touches at
most one record in any reachable database. -/
def updateWeatherQuery (env : Env) (db : DB) (id : String)
    (updates : UpdateWeatherQueryRequest) :
    Except String (DB × Option WeatherQuery) :=
  let locStep : Except String (Option LocUpdate) :=
    if strTruthy updates.location then
      let loc := updates.location.getD ""
      match validateLocation env.scorer (env.currentWeather loc) loc with
      | [] =>
        .error ("Failed to update weather query: Location \"" ++ loc ++ "\" not found")
      | bestMatch :: _ =>
        let finalLocation :=
          if mkRat 4 5 < bestMatch.confidence then bestMatch.name else loc
        match env.currentWeather finalLocation with
        | .error e => .error ("Failed to update weather query: " ++ e)
        | .ok weatherData =>
          .ok (some
            { location := loc,
              locationNormalized := normalizeLocation finalLocation,
              coordinates := bestMatch.coordinates,
              weatherData := weatherData,
              forecastData := (env.forecast finalLocation).toOption })
    else .ok none
  match locStep with
  | .error e => .error e
  | .ok lu =>
    let drStep : Except String (Option DateRange) :=
      match updates.dateRange with
      | some d =>
        let dateValidation := validateDateRange env.now d
        if dateValidation.isValid then .ok (some dateValidation.adjustedRange)
        else
          .error ("Failed to update weather query: Invalid date range: " ++
            String.intercalate ", " dateValidation.errors)
      | none => .ok none
    match drStep with
    | .error e => .error e
    | .ok drP =>
      if db.queries.any (fun r => r._id == id) then
        let queries := db.queries.map fun r =>
          if r._id == id then applyUpdate env.now lu drP updates.userNotes updates.tags r
          else r
        .ok ({ queries := queries, insights := db.insights },
             queries.find? (fun r => r._id == id))
      else .ok (db, none)

/-- `WeatherService.deleteWeatherQuery`: first delete every insight owned by
the query (`deleteMany({ queryId: id })`), then delete the query document
itself (`deleteOne`), reporting whether a document was actually removed. -/
def deleteWeatherQuery (db : DB) (id : String) : DB × Bool :=
  let insights := db.insights.filter fun i => !(i.queryId == id)
  let existed := db.queries.any fun q => q._id == id
  ({ queries := db.queries.eraseP (fun q => q._id == id), insights := insights },
   existed)

/-! ## Listing with filters and pagination (`WeatherService.listWeatherQueries`) -/

structure WeatherQueryFilters where
  location : Option String := none
  dateFrom : Option String := none
  dateTo : Option String := none
  tags : Option (List String) := none
  hasAIInsight : Option Bool := none
deriving Repr

/-- Substring test on character lists (the `$regex` substring match; the
pattern is already normalized, so the case-insensitivity flag is moot). -/
def containsSub (pat : List Char) : List Char → Bool
  | [] => pat.isEmpty
  | c :: rest => pat.isPrefixOf (c :: rest) || containsSub pat rest

/-- The MongoDB query document built by `listWeatherQueries`: location
substring on the normalized location, inclusive bounds on the range's start
date, match-any tag membership.  (`hasAIInsight` is accepted by the filter
type but never used in the query.) -/
def matchesFilters (f : WeatherQueryFilters) (q : WeatherQuery) : Bool :=
  (match f.location with
   | some loc => containsSub (normalizeLocation loc).data q.locationNormalized.data
   | none => true) &&
  (match f.dateFrom with
   | some d => decide (d ≤ q.dateRange.startDate)
   | none => true) &&
  (match f.dateTo with
   | some d => decide (q.dateRange.startDate ≤ d)
   | none => true) &&
  (match f.tags with
   | some ts => if ts.isEmpty then true else ts.any fun t => q.tags.contains t
   | none => true)

/-- Insert a record into a list sorted by `createdAt` descending. -/
def insertByCreatedDesc (q : WeatherQuery) : List WeatherQuery → List WeatherQuery
  | [] => [q]
  | r :: rest =>
    if r.createdAt ≤ q.createdAt then q :: r :: rest
    else r :: insertByCreatedDesc q rest

/-- The collection sorted by `createdAt` descending (`sort({ createdAt: -1 })`). -/
def sortByCreatedDesc : List WeatherQuery → List WeatherQuery
  | [] => []
  | q :: rest => insertByCreatedDesc q (sortByCreatedDesc rest)

/-- `Math.ceil(totalCount / limit)` for a positive `limit`. -/
def ceilDiv (n limit : Nat) : Nat := (n + limit - 1) / limit

structure PaginatedResponse where
  data : List WeatherQuery
  totalCount : Nat
  page : Nat
  limit : Nat
  totalPages : Nat
deriving DecidableEq, Repr

/-- `WeatherService.listWeatherQueries` (page is 1-indexed;
`skip = (page - 1) * limit`). -/
def listWeatherQueries (db : DB) (filters : WeatherQueryFilters)
    (page : Nat := 1) (limit : Nat := 10) : PaginatedResponse :=
  let matching := db.queries.filter (matchesFilters filters)
  let sorted := sortByCreatedDesc matching
  { data := (sorted.drop ((page - 1) * limit)).take limit,
    totalCount := matching.length,
    page := page,
    limit := limit,
    totalPages := ceilDiv matching.length limit }

/-- The page size the interactive list handler (`handleGet` in
`pages/api/weather-queries/index.ts`) passes to `listWeatherQueries`:
`Math.min(parseInt(limit, 10) || 10, 50)`.  `none` models an absent or
unparseable query parameter; `parseInt(...) || 10` also turns a parsed 0 into
the default 10. -/
def handleGetLimit (raw : Option Nat) : Nat :=
  let parsed := match raw with
    | some n => if n = 0 then 10 else n
    | none => 10
  min parsed 50

/-- The page size the export handler (`pages/api/export.ts`) passes to
`listWeatherQueries`: `Math.min(parseInt(limit, 10) || 100, 1000)`. -/
def exportHandlerLimit (raw : Option Nat) : Nat :=
  let parsed := match raw with
    | some n => if n = 0 then 100 else n
    | none => 100
  min parsed 1000

/-! ## XML export (`ExportService.escapeXML` / `ExportService.generateSimpleXML`) -/

/-- The apostrophe character (code point 39). -/
def apos : Char := Char.ofNat 39

/-- One global single-character replacement pass
(JavaScript `text.replace(/c/g, r)`). -/
def replaceAllChar (c : Char) (r : List Char) (l : List Char) : List Char :=
  l.flatMap fun x => if x = c then r else [x]

/-- The five replacement passes of `ExportService.escapeXML`, in source
order: `&`, then `<`, `>`, `"`, and the apostrophe. -/
def escapeXMLData (l : List Char) : List Char :=
  replaceAllChar apos "&apos;".data
    (replaceAllChar '"' "&quot;".data
      (replaceAllChar '>' "&gt;".data
        (replaceAllChar '<' "&lt;".data
          (replaceAllChar '&' "&amp;".data l))))

/-- `ExportService.escapeXML`.  `none` models a JavaScript `null`/`undefined`
argument; `if (!text) return ""` maps both it and the empty string to `""`. -/
def escapeXML : Option String → String
  | none => ""
  | some text => if text = "" then "" else ⟨escapeXMLData text.data⟩

/-- Per-character escaping: what each single character becomes in the output
of `escapeXML`. -/
def escChar (c : Char) : List Char :=
  if c = '&' then "&amp;".data
  else if c = '<' then "&lt;".data
  else if c = '>' then "&gt;".data
  else if c = '"' then "&quot;".data
  else if c = apos then "&apos;".data
  else [c]

/-- Concatenation of the strings a loop body appends per element
(the `forEach` string building in `generateSimpleXML`). -/
def concatMap (f : α → String) : List α → String
  | [] => ""
  | a :: rest => f a ++ concatMap f rest

/-- An XML element with text content: `<tag>content</tag>`. -/
def xmlElSeg (tag content : String) : String :=
  "<" ++ tag ++ ">" ++ content ++ ("</" ++ tag ++ ">")

/-- One indented XML element line: `indent<tag>content</tag>\n`. -/
def xmlEl (indent tag content : String) : String :=
  indent ++ xmlElSeg tag content ++ "\n"

/-- The `<query>` block `generateSimpleXML` emits for one record. -/
def queryXML (q : WeatherQuery) : String :=
  "    <query id=\"" ++ q._id ++ "\">\n" ++
  xmlEl "      " "location" (escapeXML (some q.location)) ++
  "      <dateRange>\n" ++
  xmlEl "        " "startDate" q.dateRange.startDate ++
  xmlEl "        " "endDate" q.dateRange.endDate ++
  "      </dateRange>\n" ++
  "      <weatherData>\n" ++
  xmlEl "        " "temperature" (toString q.weatherData.temperature) ++
  xmlEl "        " "description" (escapeXML (some q.weatherData.description)) ++
  xmlEl "        " "humidity" (toString q.weatherData.humidity) ++
  xmlEl "        " "windSpeed" (toString q.weatherData.windSpeed) ++
  xmlEl "        " "feelsLike" (toString q.weatherData.feelsLike) ++
  xmlEl "        " "pressure" (toString q.weatherData.pressure) ++
  xmlEl "        " "visibility" (toString q.weatherData.visibility) ++
  "      </weatherData>\n" ++
  "      <metadata>\n" ++
  xmlEl "        " "createdAt" (toString q.createdAt) ++
  xmlEl "        " "userNotes" (escapeXML (some q.userNotes)) ++
  xmlEl "        " "tags" (escapeXML (some (String.intercalate ", " q.tags))) ++
  "      </metadata>\n" ++
  "    </query>\n"

/-- The `<insight>` block `generateSimpleXML` emits for one insight. -/
def insightXML (i : AIInsight) : String :=
  "    <insight id=\"" ++ i._id ++ "\" queryId=\"" ++ i.queryId ++ "\">\n" ++
  xmlEl "      " "location" (escapeXML (some i.location)) ++
  xmlEl "      " "insight" (escapeXML (some i.insight)) ++
  xmlEl "      " "recommendations"
    (escapeXML (some (String.intercalate " | " i.recommendations))) ++
  xmlEl "      " "weatherSummary" (escapeXML (some i.weatherSummary)) ++
  xmlEl "      " "travelAdvice" (escapeXML (some (i.travelAdvice.getD ""))) ++
  xmlEl "      " "clothingRecommendations"
    (escapeXML (some (String.intercalate " | " (i.clothingRecommendations.getD [])))) ++
  xmlEl "      " "activitySuggestions"
    (escapeXML (some (String.intercalate " | " (i.activitySuggestions.getD [])))) ++
  "      <metadata>\n" ++
  xmlEl "        " "generatedAt" (toString i.generatedAt) ++
  xmlEl "        " "model" (escapeXML (some i.model)) ++
  "      </metadata>\n" ++
  "    </insight>\n"

/-- `ExportService.generateSimpleXML`, the fallback string-building XML
generator (`exportedAt` is `new Date().toISOString()`). -/
def generateSimpleXML (exportedAt : String) (queries : List WeatherQuery)
    (insights : List AIInsight) : String :=
  "<?xml version=\"1.0\" encoding=\"UTF-8\"?>\n" ++
  ("<skyCastExport exportedAt=\"" ++ exportedAt ++ "\" format=\"xml\" totalQueries=\"" ++
    toString queries.length ++ "\" totalInsights=\"" ++ toString insights.length ++ "\">\n") ++
  "  <weatherQueries>\n" ++
  concatMap queryXML queries ++
  "  </weatherQueries>\n" ++
  "  <aiInsights>\n" ++
  concatMap insightXML insights ++
  "  </aiInsights>\n" ++
  "</skyCastExport>\n"

/-- `s` contains `seg` as a contiguous segment (the characters of `seg`
occur as an infix of the characters of `s`). -/
def ContainsSeg (s seg : String) : Prop :=
  seg.data <:+: s.data

example : escapeXML (some "a<b & c") = "a&lt;b &amp; c" := by decide
example : escapeXML (some "&<>") = "&amp;&lt;&gt;" := by decide

/-! ## Theorems

Helper lemmas shared between claims come first; the claim theorems follow,
one per claim, each with a doc comment naming the claim. -/

/-- The start-before-end well-formedness of a date range, at the parsed-date
level. -/
def rangeOK (dr : DateRange) : Bool :=
  match parseISO dr.startDate, parseISO dr.endDate with
  | some s, some e => decide (s ≤ e)
  | _, _ => false

/-- A valid verdict of the validator implies a well-ordered range and an
unchanged adjusted range. -/
theorem validateDateRange_valid_elim (now : Int) (dr : DateRange)
    (h : (validateDateRange now dr).isValid = true) :
    rangeOK dr = true ∧ (validateDateRange now dr).adjustedRange = dr := by
  revert h
  unfold validateDateRange rangeOK
  cases hs : parseISO dr.startDate with
  | none => simp [hs]
  | some sv =>
    cases he : parseISO dr.endDate with
    | none => simp [hs, he]
    | some ev =>
      simp only [hs, he, Option.isNone_some, Bool.false_eq_true, if_false,
        List.nil_append, List.append_nil, List.isEmpty_nil, if_true]
      intro h
      rw [List.isEmpty_iff] at h
      rcases List.append_eq_nil.mp h with ⟨h123, h4⟩
      rcases List.append_eq_nil.mp h123 with ⟨h12, h3⟩
      rcases List.append_eq_nil.mp h12 with ⟨h1, h2⟩
      split_ifs at h1 h2 h3 h4 with o1 o2 o3 o4
      simp_all [List.isEmpty_iff]

/-- C1 (amended: the horizon bound the validator actually enforces on the
end date is five days from *now*, not five days from the start date): for
every date range whose start and end dates both parse as calendar dates,
with start ≤ end, start no earlier than one year before now and no later
than 5 days after now, and end no later than 5 days after now,
`validateDateRange` returns `isValid = true`, an empty error list, and an
adjusted range equal to the input range unchanged. -/
theorem C1_valid_range_accepted (now sv ev : Int) (dr : DateRange)
    (hs : parseISO dr.startDate = some sv) (he : parseISO dr.endDate = some ev)
    (hord : sv ≤ ev) (hpast : yearAgo now ≤ sv)
    (hstart : sv ≤ now + 5 * msPerDay) (hend : ev ≤ now + 5 * msPerDay) :
    validateDateRange now dr = { isValid := true, errors := [], adjustedRange := dr } := by
  unfold validateDateRange
  rw [hs, he]
  simp only [Option.isNone_some, Bool.false_eq_true, if_false, List.nil_append,
    List.append_nil, List.isEmpty_nil, if_true]
  rw [if_neg (by omega), if_neg (by omega), if_neg (by omega), if_neg (by omega)]
  rfl

/-- The instant used as `now` in the concrete date-range scenarios below:
noon of 2026-10-11. -/
def c1Now : Int := daysFromCivil 2026 10 11 * msPerDay + 43200000

def c1Range : DateRange := { startDate := "2026-10-14", endDate := "2026-10-19" }

def c1Start : Int := (parseISO c1Range.startDate).getD 0

def c1End : Int := (parseISO c1Range.endDate).getD 0

/-- C1 counterexample: the range 2026-10-14 → 2026-10-19 (seen at noon of
2026-10-11) satisfies every hypothesis of the claim — both dates parse,
start ≤ end, end = start + 5 days, and start lies between one year in the
past and 5 days in the future of now — yet the validator rejects it (the
end date is more than 5 days after *now*), so it does not return the
claimed valid verdict. -/
theorem C1_counterexample :
    (parseISO c1Range.startDate).isSome = true ∧
    (parseISO c1Range.endDate).isSome = true ∧
    c1Start ≤ c1End ∧ c1End ≤ c1Start + 5 * msPerDay ∧
    yearAgo c1Now ≤ c1Start ∧ c1Start ≤ c1Now + 5 * msPerDay ∧
    ¬ ((validateDateRange c1Now c1Range).isValid = true ∧
       (validateDateRange c1Now c1Range).errors = [] ∧
       (validateDateRange c1Now c1Range).adjustedRange = c1Range) := by
  decide

/-- C1 witness: the amended theorem applied to the concrete range
2026-10-10 → 2026-10-12 at noon of 2026-10-11. -/
theorem C1_witness :
    validateDateRange c1Now { startDate := "2026-10-10", endDate := "2026-10-12" } =
      { isValid := true, errors := [],
        adjustedRange := { startDate := "2026-10-10", endDate := "2026-10-12" } } :=
  C1_valid_range_accepted c1Now (20736 * msPerDay) (20738 * msPerDay) _
    (by decide) (by decide) (by decide) (by decide) (by decide) (by decide)

/-- All records at rest satisfy the start-before-end range invariant. -/
def dbRangesOK (db : DB) : Bool :=
  db.queries.all fun r => rangeOK r.dateRange

/-- A create that succeeds leaves the database with the range invariant. -/
def createKeepsRangesOK (env : Env) (db : DB)
    (request : CreateWeatherQueryRequest) : Bool :=
  match createWeatherQuery env db request with
  | .ok (db1, _) => dbRangesOK db1
  | .error _ => true

/-- An update that succeeds leaves the database with the range invariant. -/
def updateKeepsRangesOK (env : Env) (db : DB) (id : String)
    (updates : UpdateWeatherQueryRequest) : Bool :=
  match updateWeatherQuery env db id updates with
  | .ok (db1, _) => dbRangesOK db1
  | .error _ => true

/-- `applyUpdate` only changes the stored date range when the update
document carries one. -/
theorem applyUpdate_dateRange (now : Int) (lu : Option LocUpdate)
    (dr : Option DateRange) (notes : Option String) (tags : Option (List String))
    (r : WeatherQuery) :
    (applyUpdate now lu dr notes tags r).dateRange =
      (match dr with | some d => d | none => r.dateRange) := by
  unfold applyUpdate
  cases lu <;> cases dr <;> cases notes <;> cases tags <;> rfl

/-- C2: every WeatherQuery document written by `createWeatherQuery` or
`updateWeatherQuery` satisfies start ≤ end of its date range: the validator
runs before any write, an invalid range aborts the write with an error, and
a valid range is stored unchanged — so a database satisfying the invariant
still satisfies it after any create or update. -/
theorem C2_range_invariant_at_rest (env : Env) (db : DB)
    (request : CreateWeatherQueryRequest) (id : String)
    (updates : UpdateWeatherQueryRequest) (hwf : dbRangesOK db = true) :
    createKeepsRangesOK env db request = true ∧
    updateKeepsRangesOK env db id updates = true := by
  have hall : ∀ (lu : Option LocUpdate) (drP : Option DateRange),
      (∀ d, drP = some d → rangeOK d = true) →
      dbRangesOK (DB.mk (db.queries.map (fun r =>
        if r._id == id then applyUpdate env.now lu drP updates.userNotes updates.tags r
        else r)) db.insights) = true := by
    intro lu drP hdr
    simp only [dbRangesOK, List.all_eq_true] at hwf ⊢
    intro x hx
    rcases List.mem_map.mp hx with ⟨r, hr, hfx⟩
    subst hfx
    by_cases hid : (r._id == id) = true
    · simp only [hid, if_true, applyUpdate_dateRange]
      cases hdrp : drP with
      | none => exact hwf r hr
      | some d => exact hdr d hdrp
    · simp only [hid, if_false]
      exact hwf r hr
  constructor
  · unfold createKeepsRangesOK createWeatherQuery
    cases hv : (validateDateRange env.now request.dateRange).isValid with
    | false => simp [hv]
    | true =>
      have helim := validateDateRange_valid_elim env.now request.dateRange hv
      simp only [hv, Bool.not_true, Bool.false_eq_true, if_false]
      cases validateLocation env.scorer (env.currentWeather request.location)
          request.location with
      | nil => simp
      | cons best rest =>
        cases hw : env.currentWeather
            (if mkRat 4 5 < best.confidence then best.name else request.location) with
        | error e => simp [hw]
        | ok w =>
          simp only [hw, dbRangesOK, List.all_append, List.all_cons, List.all_nil,
            Bool.and_true, Bool.and_eq_true]
          exact ⟨hwf, by rw [helim.2]; exact helim.1⟩
  · unfold updateKeepsRangesOK updateWeatherQuery
    have hfinish : ∀ (lu : Option LocUpdate) (drP : Option DateRange),
        (∀ d, drP = some d → rangeOK d = true) →
        (match
          (if db.queries.any (fun r => r._id == id) then
            .ok (DB.mk (db.queries.map (fun r =>
                   if r._id == id then
                     applyUpdate env.now lu drP updates.userNotes updates.tags r
                   else r)) db.insights,
                 (db.queries.map (fun r =>
                     if r._id == id then
                       applyUpdate env.now lu drP updates.userNotes updates.tags r
                     else r)).find? (fun r => r._id == id))
          else .ok (db, none) : Except String (DB × Option WeatherQuery)) with
          | .ok (db1, _) => dbRangesOK db1
          | .error _ => true) = true := by
      intro lu drP hdr
      by_cases hany : db.queries.any (fun r => r._id == id) = true
      · simp only [hany, if_true]
        exact hall lu drP hdr
      · simp only [hany, if_false]
        exact hwf
    cases hts : strTruthy updates.location with
    | false =>
      simp only [hts, Bool.false_eq_true, if_false]
      cases hdr : updates.dateRange with
      | none => exact hfinish none none (by intro d h; cases h)
      | some d =>
        cases hv2 : (validateDateRange env.now d).isValid with
        | false => simp [hv2]
        | true =>
          have helim2 := validateDateRange_valid_elim env.now d hv2
          simp only [hv2, if_true]
          exact hfinish none (some (validateDateRange env.now d).adjustedRange)
            (by intro d2 h2; cases h2; rw [helim2.2]; exact helim2.1)
    | true =>
      simp only [hts, if_true]
      cases validateLocation env.scorer
          (env.currentWeather (updates.location.getD ""))
          (updates.location.getD "") with
      | nil => simp
      | cons best rest =>
        cases hw : env.currentWeather
            (if mkRat 4 5 < best.confidence then best.name
             else updates.location.getD "") with
        | error e => simp [hw]
        | ok w =>
          simp only [hw]
          cases hdr : updates.dateRange with
          | none => exact hfinish _ none (by intro d h; cases h)
          | some d =>
            cases hv2 : (validateDateRange env.now d).isValid with
            | false => simp [hv2]
            | true =>
              have helim2 := validateDateRange_valid_elim env.now d hv2
              simp only [hv2, if_true]
              exact hfinish _ (some (validateDateRange env.now d).adjustedRange)
                (by intro d2 h2; cases h2; rw [helim2.2]; exact helim2.1)

/-! ## Concrete sample data for witnesses and counterexamples -/

def sampleWeather : WeatherData :=
  { name := "London", country := "GB", temperature := 15, description := "scattered clouds",
    icon := "03d", feelsLike := 14, humidity := 70, pressure := 1012, windSpeed := 10,
    windDirection := 180, visibility := 10, clouds := 40, sunrise := 1760000000,
    sunset := 1760040000 }

def parisWeather : WeatherData :=
  { name := "Paris", country := "FR", temperature := 18, description := "clear sky",
    icon := "01d", feelsLike := 18, humidity := 55, pressure := 1018, windSpeed := 6,
    windDirection := 90, visibility := 10, clouds := 5, sunrise := 1760000100,
    sunset := 1760040100 }

def sampleForecast : ForecastData :=
  { cityName := "London", cityCountry := "GB",
    list := [{ date := "Sun, Oct 11", temperatureMin := 9, temperatureMax := 16,
               description := "light rain", icon := "10d", humidity := 80,
               windSpeed := 12, pop := 60 }] }

def sampleRange : DateRange := { startDate := "2026-10-10", endDate := "2026-10-12" }

def sampleQuery : WeatherQuery :=
  { _id := "q1", location := "London", locationNormalized := "london",
    coordinates := { lat := 0, lon := 0 }, dateRange := sampleRange,
    weatherData := sampleWeather, forecastData := some sampleForecast,
    createdAt := 100, updatedAt := 100, tags := ["trip"], userNotes := "pack a coat" }

def sampleInsight : AIInsight :=
  { _id := "i1", queryId := "q1", location := "London",
    insight := "Mild days ahead", recommendations := ["carry an umbrella"],
    weatherSummary := "mild and damp", travelAdvice := some "allow extra time",
    clothingRecommendations := some ["rain jacket"],
    activitySuggestions := some ["museum visit"], generatedAt := 101,
    model := "test-model" }

def c2Env : Env :=
  { now := c1Now, newId := "q2", scorer := fun _ _ => none,
    currentWeather := fun _ => .ok sampleWeather,
    forecast := fun _ => .ok sampleForecast }

def c2Db : DB := { queries := [sampleQuery], insights := [sampleInsight] }

def c2Request : CreateWeatherQueryRequest :=
  { location := "London", dateRange := sampleRange, userNotes := none, tags := none }

def c2Updates : UpdateWeatherQueryRequest :=
  { location := some "Paris", dateRange := some sampleRange,
    userNotes := some "updated", tags := none }

/-- C2 witness: the invariant-preservation theorem applied to a concrete
one-record database, create request and update request. -/
theorem C2_witness :
    createKeepsRangesOK c2Env c2Db c2Request = true ∧
    updateKeepsRangesOK c2Env c2Db "q1" c2Updates = true :=
  C2_range_invariant_at_rest c2Env c2Db c2Request "q1" c2Updates (by decide)

/-- C3: when the authoritative current-weather lookup fails,
`validateLocation` returns no candidates at all — for every scorer, error
and location string — because the Fuse index is built over the empty list;
the non-empty `COMMON_LOCATIONS` gazetteer is never registered with it, so
the documented fuzzy fallback is dead code. -/
theorem C3_fuzzy_fallback_returns_nothing (scorer : String → GazEntry → Option Rat)
    (msg location : String) :
    validateLocation scorer (.error msg) location = [] ∧ COMMON_LOCATIONS ≠ [] :=
  ⟨rfl, by decide⟩

/-- C4: in `createWeatherQuery`, failure of the required current-weather
fetch fails the whole operation with an error (so nothing is persisted — the
insert only happens on the success path, whose result database is returned
here), while failure of the forecast fetch is swallowed: the query is still
created and appended to the collection, with no `forecastData`. -/
theorem C4_weather_required_forecast_optional (env : Env) (db : DB)
    (request : CreateWeatherQueryRequest) (w0 w : WeatherData) (msg fmsg : String)
    (hv : (validateDateRange env.now request.dateRange).isValid = true)
    (h0 : env.currentWeather request.location = .ok w0) :
    (env.currentWeather w0.name = .error msg →
      createWeatherQuery env db request =
        .error ("Failed to fetch weather data: " ++ msg)) ∧
    (env.currentWeather w0.name = .ok w → env.forecast w0.name = .error fmsg →
      ∃ q, createWeatherQuery env db request =
          .ok (DB.mk (db.queries ++ [q]) db.insights, q) ∧ q.forecastData = none) := by
  have hconf : mkRat 4 5 < 1 := by decide
  constructor
  · intro hcw
    unfold createWeatherQuery
    rw [h0]
    simp only [validateLocation, hv, Bool.not_true, Bool.false_eq_true, if_false,
      if_pos hconf]
    rw [hcw]
  · intro hcw hfc
    refine ⟨{ _id := env.newId, location := request.location,
              locationNormalized := normalizeLocation w0.name,
              coordinates := { lat := 0, lon := 0 },
              dateRange := (validateDateRange env.now request.dateRange).adjustedRange,
              weatherData := w, forecastData := none,
              createdAt := env.now, updatedAt := env.now,
              tags := request.tags.getD [], userNotes := request.userNotes.getD "" },
            ?_, rfl⟩
    unfold createWeatherQuery
    rw [h0]
    simp only [validateLocation, hv, Bool.not_true, Bool.false_eq_true, if_false,
      if_pos hconf]
    rw [hcw, hfc]
    rfl

def c4Request : CreateWeatherQueryRequest :=
  { location := "london", dateRange := sampleRange, userNotes := none, tags := none }

/-- Environment in which the required current-weather re-fetch (keyed by the
canonical name chosen by location validation) fails. -/
def c4EnvA : Env :=
  { now := c1Now, newId := "q9", scorer := fun _ _ => none,
    currentWeather := fun loc =>
      if loc = "london" then .ok sampleWeather
      else .error "Failed to fetch current weather data",
    forecast := fun _ => .ok sampleForecast }

/-- Environment in which the current-weather fetches succeed but the
forecast fetch fails. -/
def c4EnvB : Env :=
  { now := c1Now, newId := "q9", scorer := fun _ _ => none,
    currentWeather := fun _ => .ok sampleWeather,
    forecast := fun _ => .error "Failed to fetch forecast data" }

/-- C4 witness: both conjuncts applied at concrete environments. -/
theorem C4_witness :
    createWeatherQuery c4EnvA c2Db c4Request =
      .error "Failed to fetch weather data: Failed to fetch current weather data" ∧
    ∃ q, createWeatherQuery c4EnvB c2Db c4Request =
        .ok (DB.mk (c2Db.queries ++ [q]) c2Db.insights, q) ∧ q.forecastData = none :=
  ⟨(C4_weather_required_forecast_optional c4EnvA c2Db c4Request sampleWeather
      sampleWeather "Failed to fetch current weather data" "unused"
      (by decide) (by rfl)).1 (by rfl),
   (C4_weather_required_forecast_optional c4EnvB c2Db c4Request sampleWeather
      sampleWeather "unused" "Failed to fetch forecast data"
      (by decide) (by rfl)).2 (by rfl) (by rfl)⟩

/-- Erasing the one record with a given key (under key uniqueness) leaves no
record with that key. -/
theorem any_eraseP_key_eq_false {α β : Type} [DecidableEq β] (f : α → β) (k : β)
    (l : List α) (h : (l.map f).Nodup) :
    ((l.eraseP fun a => f a == k).any fun a => f a == k) = false := by
  induction l with
  | nil => rfl
  | cons a t ih =>
    rw [List.map_cons, List.nodup_cons] at h
    obtain ⟨hna, hnt⟩ := h
    by_cases hfa : (f a == k) = true
    · rw [List.eraseP_cons, hfa]
      simp only [cond_true]
      rw [List.any_eq_false]
      intro x hx hpx
      exact hna (List.mem_map.mpr ⟨x, hx,
        by rw [eq_of_beq hpx, eq_of_beq hfa]⟩)
    · have hfa2 : (f a == k) = false := by
        cases hb : (f a == k) with
        | true => exact absurd hb hfa
        | false => rfl
      rw [List.eraseP_cons, hfa2]
      simp only [cond_false, List.any_cons, hfa2, Bool.false_or]
      exact ih hnt

/-- C5: `deleteWeatherQuery` is idempotent and cascading.  With unique ids:
the returned flag is exactly "a record with this id existed" (true for an
existing id, false for a non-existent one — the model never throws, matching
the catch-all that returns false); every insight owned by the id is deleted
(the insight deletion is issued first in the model, as in the source); the
record itself is removed; and a second delete of the same id reports false. -/
theorem C5_delete_idempotent_cascading (db : DB) (id : String)
    (h : (db.queries.map fun q => q._id).Nodup) :
    ((deleteWeatherQuery db id).2 = db.queries.any fun q => q._id == id) ∧
    (∀ i ∈ (deleteWeatherQuery db id).1.insights, ¬ i.queryId = id) ∧
    (((deleteWeatherQuery db id).1.queries.any fun q => q._id == id) = false) ∧
    ((deleteWeatherQuery (deleteWeatherQuery db id).1 id).2 = false) := by
  refine ⟨rfl, ?_, ?_, ?_⟩
  · intro i hi
    simp only [deleteWeatherQuery, List.mem_filter] at hi
    simpa using hi.2
  · exact any_eraseP_key_eq_false (fun q => q._id) id db.queries h
  · exact any_eraseP_key_eq_false (fun q => q._id) id db.queries h

/-- C5 witness: deleting the only record of the concrete database. -/
theorem C5_witness :
    ((deleteWeatherQuery c2Db "q1").2 = c2Db.queries.any fun q => q._id == "q1") ∧
    (∀ i ∈ (deleteWeatherQuery c2Db "q1").1.insights, ¬ i.queryId = "q1") ∧
    (((deleteWeatherQuery c2Db "q1").1.queries.any fun q => q._id == "q1") = false) ∧
    ((deleteWeatherQuery (deleteWeatherQuery c2Db "q1").1 "q1").2 = false) :=
  C5_delete_idempotent_cascading c2Db "q1" (by decide)

/-- C6: an update that supplies only `userNotes` rewrites exactly the
matching record, replacing its `userNotes` and refreshing `updatedAt` while
leaving `location`, `locationNormalized`, `coordinates`, `dateRange`,
`weatherData`, `forecastData`, `tags` and `createdAt` untouched (the record
update on the right names only the two changed fields); all other records
and the insights collection are untouched, and the operation cannot fail. -/
theorem C6_userNotes_update_frame (env : Env) (db : DB) (id : String)
    (notes : String) :
    ∃ found, updateWeatherQuery env db id
        { location := none, dateRange := none, userNotes := some notes, tags := none } =
      .ok (DB.mk (db.queries.map (fun r =>
             if r._id == id then { r with userNotes := notes, updatedAt := env.now }
             else r)) db.insights, found) := by
  unfold updateWeatherQuery
  simp only [strTruthy, Bool.false_eq_true, if_false]
  by_cases hany : (db.queries.any fun r => r._id == id) = true
  · rw [if_pos hany]
    exact ⟨_, rfl⟩
  · rw [if_neg hany]
    refine ⟨none, ?_⟩
    have hmap : (db.queries.map fun r =>
        if r._id == id then { r with userNotes := notes, updatedAt := env.now }
        else r) = db.queries := by
      have hfalse : (db.queries.any fun r => r._id == id) = false := by
        cases hb : (db.queries.any fun r => r._id == id) with
        | true => exact absurd hb hany
        | false => rfl
      have hnone := List.any_eq_false.mp hfalse
      calc (db.queries.map fun r =>
              if r._id == id then { r with userNotes := notes, updatedAt := env.now }
              else r)
          = db.queries.map (fun r => r) := by
            apply List.map_congr_left
            intro r hr
            rw [if_neg (fun hc => hnone r hr hc)]
        _ = db.queries := List.map_id' db.queries
    rw [hmap]

/-- C7 (amended: the re-fetched snapshots replace the stored ones only as
far as the fetches succeed — when the forecast re-fetch fails, the
previously stored forecast snapshot is retained rather than replaced): an
update supplying a (non-empty) location re-resolves it, re-fetches both
snapshots, and rewrites the matching record with the new location fields and
the newly fetched weather snapshot; its forecast snapshot becomes the newly
fetched one when that fetch succeeded, and otherwise stays the old stored
one (`Option.or` of new over old). -/
theorem C7_location_update_refetch (env : Env) (db : DB) (id loc : String)
    (w0 w : WeatherData) (hloc : ¬ loc = "")
    (h0 : env.currentWeather loc = .ok w0)
    (hw : env.currentWeather w0.name = .ok w) :
    ∃ found, updateWeatherQuery env db id
        { location := some loc, dateRange := none, userNotes := none, tags := none } =
      .ok (DB.mk (db.queries.map (fun r =>
             if r._id == id then
               { r with location := loc,
                        locationNormalized := normalizeLocation w0.name,
                        coordinates := { lat := 0, lon := 0 },
                        weatherData := w,
                        forecastData := ((env.forecast w0.name).toOption).or r.forecastData,
                        updatedAt := env.now }
             else r)) db.insights, found) := by
  have hconf : mkRat 4 5 < 1 := by decide
  unfold updateWeatherQuery
  have hts : strTruthy (some loc) = true := by simp [strTruthy, hloc]
  simp only [hts, if_true, Option.getD_some]
  rw [h0]
  simp only [validateLocation, if_pos hconf]
  rw [hw]
  dsimp only
  by_cases hany : (db.queries.any fun r => r._id == id) = true
  · rw [if_pos hany]
    have hfun : (fun r => if (r._id == id) = true then applyUpdate env.now (some
        { location := loc, locationNormalized := normalizeLocation w0.name,
          coordinates := { lat := 0, lon := 0 }, weatherData := w,
          forecastData := (env.forecast w0.name).toOption }) none none none r else r)
        = (fun r : WeatherQuery => if (r._id == id) = true then
             { r with location := loc, locationNormalized := normalizeLocation w0.name,
                      coordinates := { lat := 0, lon := 0 }, weatherData := w,
                      forecastData := ((env.forecast w0.name).toOption).or r.forecastData,
                      updatedAt := env.now }
           else r) := by
      funext r
      cases env.forecast w0.name <;> rfl
    rw [hfun]
    exact ⟨_, rfl⟩
  · rw [if_neg hany]
    refine ⟨none, ?_⟩
    have hfalse : (db.queries.any fun r => r._id == id) = false := by
      cases hb : (db.queries.any fun r => r._id == id) with
      | true => exact absurd hb hany
      | false => rfl
    have hnone := List.any_eq_false.mp hfalse
    have hmap : (db.queries.map fun r =>
        if r._id == id then
          { r with location := loc,
                   locationNormalized := normalizeLocation w0.name,
                   coordinates := { lat := 0, lon := 0 },
                   weatherData := w,
                   forecastData := ((env.forecast w0.name).toOption).or r.forecastData,
                   updatedAt := env.now }
        else r) = db.queries := by
      calc (db.queries.map fun r =>
              if r._id == id then
                { r with location := loc,
                         locationNormalized := normalizeLocation w0.name,
                         coordinates := { lat := 0, lon := 0 },
                         weatherData := w,
                         forecastData := ((env.forecast w0.name).toOption).or r.forecastData,
                         updatedAt := env.now }
              else r)
          = db.queries.map (fun r => r) := by
            apply List.map_congr_left
            intro r hr
            rw [if_neg (fun hc => hnone r hr hc)]
        _ = db.queries := List.map_id' db.queries
    rw [hmap]

/-- Environment for the concrete location-update scenarios: the weather
lookup resolves to Paris, but the forecast fetch is down. -/
def c7Env : Env :=
  { now := c1Now, newId := "unused", scorer := fun _ _ => none,
    currentWeather := fun _ => .ok parisWeather,
    forecast := fun _ => .error "Failed to fetch forecast data" }

def c7Updates : UpdateWeatherQueryRequest :=
  { location := some "Paris", dateRange := none, userNotes := none, tags := none }

/-- The record as it stands after updating `sampleQuery`'s location to Paris
under `c7Env`: note `forecastData` still holds London's `sampleForecast`. -/
def c7Updated : WeatherQuery :=
  { _id := "q1", location := "Paris", locationNormalized := "paris",
    coordinates := { lat := 0, lon := 0 }, dateRange := sampleRange,
    weatherData := parisWeather, forecastData := some sampleForecast,
    createdAt := 100, updatedAt := c1Now, tags := ["trip"],
    userNotes := "pack a coat" }

/-- C7 counterexample: updating the stored London query's location to Paris
while the forecast re-fetch fails leaves the *old London forecast snapshot*
in the record — the stored forecast is retained, not replaced wholesale by
the (failed) re-fetch as the claim states. -/
theorem C7_counterexample :
    c7Env.forecast "Paris" = .error "Failed to fetch forecast data" ∧
    sampleQuery.forecastData = some sampleForecast ∧
    updateWeatherQuery c7Env c2Db "q1" c7Updates =
      .ok (DB.mk [c7Updated] c2Db.insights, some c7Updated) ∧
    c7Updated.forecastData = some sampleForecast := by
  refine ⟨rfl, rfl, ?_, rfl⟩
  decide

/-- C7 witness: the amended theorem applied to the concrete Paris update. -/
theorem C7_witness :
    ∃ found, updateWeatherQuery c7Env c2Db "q1" c7Updates =
      .ok (DB.mk (c2Db.queries.map (fun r =>
             if r._id == "q1" then
               { r with location := "Paris",
                        locationNormalized := normalizeLocation parisWeather.name,
                        coordinates := { lat := 0, lon := 0 },
                        weatherData := parisWeather,
                        forecastData :=
                          ((c7Env.forecast parisWeather.name).toOption).or r.forecastData,
                        updatedAt := c7Env.now }
             else r)) c2Db.insights, found) :=
  C7_location_update_refetch c7Env c2Db "q1" "Paris" parisWeather parisWeather
    (by decide) (by rfl) (by rfl)

theorem insertByCreatedDesc_length (q : WeatherQuery) (l : List WeatherQuery) :
    (insertByCreatedDesc q l).length = l.length + 1 := by
  induction l with
  | nil => rfl
  | cons r rest ih =>
    unfold insertByCreatedDesc
    by_cases hc : r.createdAt ≤ q.createdAt
    · rw [if_pos hc]
      rfl
    · rw [if_neg hc]
      simp [ih]

theorem sortByCreatedDesc_length (l : List WeatherQuery) :
    (sortByCreatedDesc l).length = l.length := by
  induction l with
  | nil => rfl
  | cons q rest ih =>
    unfold sortByCreatedDesc
    rw [insertByCreatedDesc_length, ih]
    rfl

theorem mem_insertByCreatedDesc {x q : WeatherQuery} {l : List WeatherQuery} :
    x ∈ insertByCreatedDesc q l ↔ x = q ∨ x ∈ l := by
  induction l with
  | nil => simp [insertByCreatedDesc]
  | cons r rest ih =>
    unfold insertByCreatedDesc
    by_cases hc : r.createdAt ≤ q.createdAt
    · rw [if_pos hc]
      simp
    · rw [if_neg hc]
      simp only [List.mem_cons, ih]
      tauto

theorem pairwise_insertByCreatedDesc (q : WeatherQuery) (l : List WeatherQuery)
    (h : l.Pairwise fun a b => b.createdAt ≤ a.createdAt) :
    (insertByCreatedDesc q l).Pairwise fun a b => b.createdAt ≤ a.createdAt := by
  induction l with
  | nil => simp [insertByCreatedDesc]
  | cons r rest ih =>
    rcases List.pairwise_cons.mp h with ⟨hr, hrest⟩
    unfold insertByCreatedDesc
    by_cases hc : r.createdAt ≤ q.createdAt
    · rw [if_pos hc]
      refine List.pairwise_cons.mpr ⟨?_, h⟩
      intro x hx
      rcases List.mem_cons.mp hx with hxr | hxrest
      · rw [hxr]
        exact hc
      · exact le_trans (hr x hxrest) hc
    · rw [if_neg hc]
      refine List.pairwise_cons.mpr ⟨?_, ih hrest⟩
      intro x hx
      rcases mem_insertByCreatedDesc.mp hx with hxq | hxrest
      · rw [hxq]
        omega
      · exact hr x hxrest

theorem pairwise_sortByCreatedDesc (l : List WeatherQuery) :
    (sortByCreatedDesc l).Pairwise fun a b => b.createdAt ≤ a.createdAt := by
  induction l with
  | nil => simp [sortByCreatedDesc]
  | cons q rest ih => exact pairwise_insertByCreatedDesc q (sortByCreatedDesc rest) ih

/-- A synthetic stored record (used to build a 25-record collection). -/
def c8Query (i : Nat) : WeatherQuery :=
  { _id := toString i, location := "London", locationNormalized := "london",
    coordinates := { lat := 0, lon := 0 }, dateRange := sampleRange,
    weatherData := sampleWeather, forecastData := none, createdAt := i,
    updatedAt := i, tags := [], userNotes := "" }

/-- A database of 25 records (all matching the empty filter). -/
def c8Db : DB := { queries := (List.range 25).map c8Query, insights := [] }

/-- C8: `listWeatherQueries` over N matching records with 1-indexed page `p`
and page size `L` returns `min L (N - (p-1)·L)` records (Nat subtraction is
the `max 0` clamp), sorted newest-created-first, with `totalCount = N` and
`totalPages = ⌈N / L⌉`; in particular page 2 with limit 10 over 25 matching
records returns exactly 10 records, totalPages 3 and totalCount 25; and the
page size reaching it is capped at 50 by the interactive list handler and at
1000 by the export handler. -/
theorem C8_pagination (db : DB) (filters : WeatherQueryFilters)
    (page limit : Nat) (raw : Option Nat) :
    (listWeatherQueries db filters page limit).data.length =
      min limit ((db.queries.filter (matchesFilters filters)).length -
        (page - 1) * limit) ∧
    (listWeatherQueries db filters page limit).totalCount =
      (db.queries.filter (matchesFilters filters)).length ∧
    (listWeatherQueries db filters page limit).totalPages =
      ceilDiv (db.queries.filter (matchesFilters filters)).length limit ∧
    (listWeatherQueries db filters page limit).data.Pairwise
      (fun a b => b.createdAt ≤ a.createdAt) ∧
    handleGetLimit raw ≤ 50 ∧ exportHandlerLimit raw ≤ 1000 ∧
    (listWeatherQueries c8Db {} 2 10).data.length = 10 ∧
    (listWeatherQueries c8Db {} 2 10).totalPages = 3 ∧
    (listWeatherQueries c8Db {} 2 10).totalCount = 25 := by
  refine ⟨?_, rfl, rfl, ?_, ?_, ?_, ?_, ?_, ?_⟩
  · simp only [listWeatherQueries, List.length_take, List.length_drop,
      sortByCreatedDesc_length]
  · simp only [listWeatherQueries]
    exact List.Pairwise.sublist
      ((List.take_sublist _ _).trans (List.drop_sublist _ _))
      (pairwise_sortByCreatedDesc _)
  · unfold handleGetLimit
    exact Nat.min_le_right _ _
  · unfold exportHandlerLimit
    exact Nat.min_le_right _ _
  · decide
  · decide
  · decide

theorem ContainsSeg.appendLeft {s seg : String} (a : String)
    (h : ContainsSeg s seg) : ContainsSeg (a ++ s) seg := by
  unfold ContainsSeg at h ⊢
  rw [String.data_append]
  have hsuf := List.suffix_append a.data s.data
  exact h.trans hsuf.isInfix

theorem ContainsSeg.appendRight {s seg : String} (b : String)
    (h : ContainsSeg s seg) : ContainsSeg (s ++ b) seg := by
  unfold ContainsSeg at h ⊢
  rw [String.data_append]
  have hpre := List.prefix_append s.data b.data
  exact h.trans hpre.isInfix

theorem xmlEl_contains (indent tag content : String) :
    ContainsSeg (xmlEl indent tag content) (xmlElSeg tag content) := by
  unfold ContainsSeg xmlEl
  rw [String.data_append, String.data_append]
  exact List.infix_append _ _ _

theorem concatMap_contains {α : Type} (f : α → String) {x : α} {l : List α}
    (hx : x ∈ l) {seg : String} (h : ContainsSeg (f x) seg) :
    ContainsSeg (concatMap f l) seg := by
  induction l with
  | nil => cases hx
  | cons a t ih =>
    rcases List.mem_cons.mp hx with rfl | hmem
    · exact h.appendRight (concatMap f t)
    · exact (ih hmem).appendLeft (f a)

theorem generateSimpleXML_contains_query (exportedAt : String)
    (queries : List WeatherQuery) (insights : List AIInsight) {q : WeatherQuery}
    (hq : q ∈ queries) {seg : String} (h : ContainsSeg (queryXML q) seg) :
    ContainsSeg (generateSimpleXML exportedAt queries insights) seg := by
  have hcm := concatMap_contains queryXML hq h
  unfold generateSimpleXML
  repeat first
  | exact hcm
  | exact hcm.appendLeft _
  | apply ContainsSeg.appendRight

theorem generateSimpleXML_contains_insight (exportedAt : String)
    (queries : List WeatherQuery) (insights : List AIInsight) {i : AIInsight}
    (hi : i ∈ insights) {seg : String} (h : ContainsSeg (insightXML i) seg) :
    ContainsSeg (generateSimpleXML exportedAt queries insights) seg := by
  have hcm := concatMap_contains insightXML hi h
  unfold generateSimpleXML
  repeat first
  | exact hcm
  | exact hcm.appendLeft _
  | apply ContainsSeg.appendRight

theorem replaceAllChar_append (c : Char) (r a b : List Char) :
    replaceAllChar c r (a ++ b) = replaceAllChar c r a ++ replaceAllChar c r b := by
  unfold replaceAllChar
  exact List.flatMap_append a b _

theorem escapeXMLData_append (a b : List Char) :
    escapeXMLData (a ++ b) = escapeXMLData a ++ escapeXMLData b := by
  unfold escapeXMLData
  rw [replaceAllChar_append, replaceAllChar_append, replaceAllChar_append,
    replaceAllChar_append, replaceAllChar_append]

theorem escapeXMLData_singleton (x : Char) : escapeXMLData [x] = escChar x := by
  by_cases h1 : x = '&'
  · rw [h1]
    decide
  by_cases h2 : x = '<'
  · rw [h2]
    decide
  by_cases h3 : x = '>'
  · rw [h3]
    decide
  by_cases h4 : x = '"'
  · rw [h4]
    decide
  by_cases h5 : x = apos
  · rw [h5]
    decide
  simp only [escapeXMLData, replaceAllChar, escChar, List.flatMap_cons,
    List.flatMap_nil, List.append_nil, if_neg h1, if_neg h2, if_neg h3,
    if_neg h4, if_neg h5]

/-- The five sequential replacement passes of `escapeXML` amount to a single
per-character escaping pass: entities introduced by an earlier pass are
never re-escaped by a later one. -/
theorem escapeXMLData_eq_flatMap (l : List Char) :
    escapeXMLData l = l.flatMap escChar := by
  induction l with
  | nil => rfl
  | cons x xs ih =>
    have hsplit : x :: xs = [x] ++ xs := rfl
    rw [hsplit, escapeXMLData_append, ih, escapeXMLData_singleton,
      List.flatMap_append, List.flatMap_cons, List.flatMap_nil, List.append_nil]

attribute [irreducible] xmlEl

theorem queryXML_contains_location (q : WeatherQuery) :
    ContainsSeg (queryXML q) (xmlElSeg "location" (escapeXML (some q.location))) := by
  unfold queryXML
  exact ((((((((((((((((((((xmlEl_contains _ _ _).appendLeft _).appendRight _).appendRight _).appendRight _).appendRight _).appendRight _).appendRight _).appendRight _).appendRight _).appendRight _).appendRight _).appendRight _).appendRight _).appendRight _).appendRight _).appendRight _).appendRight _).appendRight _).appendRight _).appendRight _

theorem queryXML_contains_description (q : WeatherQuery) :
    ContainsSeg (queryXML q)
      (xmlElSeg "description" (escapeXML (some q.weatherData.description))) := by
  unfold queryXML
  exact (((((((((((((xmlEl_contains _ _ _).appendLeft _).appendRight _).appendRight _).appendRight _).appendRight _).appendRight _).appendRight _).appendRight _).appendRight _).appendRight _).appendRight _).appendRight _).appendRight _

theorem queryXML_contains_userNotes (q : WeatherQuery) :
    ContainsSeg (queryXML q) (xmlElSeg "userNotes" (escapeXML (some q.userNotes))) := by
  unfold queryXML
  exact ((((xmlEl_contains _ _ _).appendLeft _).appendRight _).appendRight _).appendRight _

theorem queryXML_contains_tags (q : WeatherQuery) :
    ContainsSeg (queryXML q)
      (xmlElSeg "tags" (escapeXML (some (String.intercalate ", " q.tags)))) := by
  unfold queryXML
  exact (((xmlEl_contains _ _ _).appendLeft _).appendRight _).appendRight _

theorem insightXML_contains_insight (i : AIInsight) :
    ContainsSeg (insightXML i) (xmlElSeg "insight" (escapeXML (some i.insight))) := by
  unfold insightXML
  exact (((((((((((xmlEl_contains _ _ _).appendLeft _).appendRight _).appendRight _).appendRight _).appendRight _).appendRight _).appendRight _).appendRight _).appendRight _).appendRight _).appendRight _

theorem insightXML_contains_recommendations (i : AIInsight) :
    ContainsSeg (insightXML i)
      (xmlElSeg "recommendations"
        (escapeXML (some (String.intercalate " | " i.recommendations)))) := by
  unfold insightXML
  exact ((((((((((xmlEl_contains _ _ _).appendLeft _).appendRight _).appendRight _).appendRight _).appendRight _).appendRight _).appendRight _).appendRight _).appendRight _).appendRight _

theorem insightXML_contains_travelAdvice (i : AIInsight) :
    ContainsSeg (insightXML i)
      (xmlElSeg "travelAdvice" (escapeXML (some (i.travelAdvice.getD "")))) := by
  unfold insightXML
  exact ((((((((xmlEl_contains _ _ _).appendLeft _).appendRight _).appendRight _).appendRight _).appendRight _).appendRight _).appendRight _).appendRight _

theorem insightXML_contains_model (i : AIInsight) :
    ContainsSeg (insightXML i) (xmlElSeg "model" (escapeXML (some i.model))) := by
  unfold insightXML
  exact (((xmlEl_contains _ _ _).appendLeft _).appendRight _).appendRight _

/-- C9: `escapeXML` escapes all five XML special characters in one pass per
character (`&` → `&amp;`, `<` → `&lt;`, `>` → `&gt;`, `"` → `&quot;`,
apostrophe → `&apos;`, and every other character is kept as-is — `escChar`),
maps a null or empty input to the empty string, and the fallback
string-building generator `generateSimpleXML` wraps every text field of
every exported record — location, description, notes, tags, insight text,
recommendations, travel advice, model — in its element with this escaping
applied, so special characters in notes or insight text reach the output
escaped (the final conjunct shows a concrete escaped `userNotes` element). -/
theorem C9_xml_escaping (s exportedAt : String) (queries : List WeatherQuery)
    (insights : List AIInsight) (q : WeatherQuery) (i : AIInsight)
    (hq : q ∈ queries) (hi : i ∈ insights) :
    escapeXML (some s) = String.mk (s.data.flatMap escChar) ∧
    escapeXML none = "" ∧
    escapeXML (some "") = "" ∧
    ContainsSeg (generateSimpleXML exportedAt queries insights)
      (xmlElSeg "location" (escapeXML (some q.location))) ∧
    ContainsSeg (generateSimpleXML exportedAt queries insights)
      (xmlElSeg "description" (escapeXML (some q.weatherData.description))) ∧
    ContainsSeg (generateSimpleXML exportedAt queries insights)
      (xmlElSeg "userNotes" (escapeXML (some q.userNotes))) ∧
    ContainsSeg (generateSimpleXML exportedAt queries insights)
      (xmlElSeg "tags" (escapeXML (some (String.intercalate ", " q.tags)))) ∧
    ContainsSeg (generateSimpleXML exportedAt queries insights)
      (xmlElSeg "insight" (escapeXML (some i.insight))) ∧
    ContainsSeg (generateSimpleXML exportedAt queries insights)
      (xmlElSeg "recommendations"
        (escapeXML (some (String.intercalate " | " i.recommendations)))) ∧
    ContainsSeg (generateSimpleXML exportedAt queries insights)
      (xmlElSeg "travelAdvice" (escapeXML (some (i.travelAdvice.getD "")))) ∧
    ContainsSeg (generateSimpleXML exportedAt queries insights)
      (xmlElSeg "model" (escapeXML (some i.model))) ∧
    xmlElSeg "userNotes" (escapeXML (some "5\" < 6 & 7")) =
      "<userNotes>5&quot; &lt; 6 &amp; 7</userNotes>" := by
  refine ⟨?_, rfl, rfl, ?_, ?_, ?_, ?_, ?_, ?_, ?_, ?_, by decide⟩
  · by_cases hs : s = ""
    · rw [hs]
      rfl
    · simp only [escapeXML, if_neg hs, escapeXMLData_eq_flatMap]
  · exact generateSimpleXML_contains_query exportedAt queries insights hq
      (queryXML_contains_location q)
  · exact generateSimpleXML_contains_query exportedAt queries insights hq
      (queryXML_contains_description q)
  · exact generateSimpleXML_contains_query exportedAt queries insights hq
      (queryXML_contains_userNotes q)
  · exact generateSimpleXML_contains_query exportedAt queries insights hq
      (queryXML_contains_tags q)
  · exact generateSimpleXML_contains_insight exportedAt queries insights hi
      (insightXML_contains_insight i)
  · exact generateSimpleXML_contains_insight exportedAt queries insights hi
      (insightXML_contains_recommendations i)
  · exact generateSimpleXML_contains_insight exportedAt queries insights hi
      (insightXML_contains_travelAdvice i)
  · exact generateSimpleXML_contains_insight exportedAt queries insights hi
      (insightXML_contains_model i)

/-- C9 witness: the escaping theorem applied to a concrete string and a
concrete one-query, one-insight export. -/
theorem C9_witness :
    escapeXML (some "a&b") = String.mk ("a&b".data.flatMap escChar) ∧
    ContainsSeg (generateSimpleXML "2026-10-11T12:00:00.000Z" [sampleQuery] [sampleInsight])
      (xmlElSeg "userNotes" (escapeXML (some sampleQuery.userNotes))) ∧
    ContainsSeg (generateSimpleXML "2026-10-11T12:00:00.000Z" [sampleQuery] [sampleInsight])
      (xmlElSeg "insight" (escapeXML (some sampleInsight.insight))) := by
  have h := C9_xml_escaping "a&b" "2026-10-11T12:00:00.000Z" [sampleQuery]
    [sampleInsight] sampleQuery sampleInsight (by decide) (by decide)
  exact ⟨h.1, h.2.2.2.2.2.1, h.2.2.2.2.2.2.2.1⟩

/-- Every candidate produced by location validation carries the placeholder
coordinates (0, 0): the authoritative branch writes them literally, and the
fuzzy branch maps every result to them. -/
theorem validateLocation_coords (scorer : String → GazEntry → Option Rat)
    (cw : Except String WeatherData) (loc : String) :
    ∀ m ∈ validateLocation scorer cw loc, m.coordinates = { lat := 0, lon := 0 } := by
  intro m hm
  cases cw with
  | ok w =>
    rcases List.mem_singleton.mp hm with rfl
    rfl
  | error e =>
    rcases List.mem_map.mp hm with ⟨r, hr, hfr⟩
    rw [← hfr]

/-- `applyUpdate` writes the update document's coordinates whenever a
location update is present. -/
theorem applyUpdate_coordinates (now : Int) (lu : LocUpdate)
    (dr : Option DateRange) (notes : Option String) (tags : Option (List String))
    (r : WeatherQuery) :
    (applyUpdate now (some lu) dr notes tags r).coordinates = lu.coordinates := by
  unfold applyUpdate
  cases dr <;> cases notes <;> cases tags <;> rfl

/-- C10 (implicit): every `LocationMatch` out of `validateLocation` — on the
authoritative-success path and on the fuzzy-fallback path alike — carries
the placeholder coordinates lat = 0, lon = 0, and consequently the
`coordinates` field of every record persisted by `createWeatherQuery`, and
of every record rewritten by a location-carrying `updateWeatherQuery`, is
always (0, 0). -/
theorem C10_placeholder_coordinates (scorer : String → GazEntry → Option Rat)
    (cw : Except String WeatherData) (loc : String) (env env2 : Env)
    (db dbc dbu : DB) (request : CreateWeatherQueryRequest) (q found : WeatherQuery)
    (id : String) (updates : UpdateWeatherQueryRequest) :
    (∀ m ∈ validateLocation scorer cw loc, m.coordinates = { lat := 0, lon := 0 }) ∧
    (createWeatherQuery env db request = .ok (dbc, q) →
      q.coordinates = { lat := 0, lon := 0 }) ∧
    (strTruthy updates.location = true →
      updateWeatherQuery env2 db id updates = .ok (dbu, some found) →
      found.coordinates = { lat := 0, lon := 0 }) := by
  refine ⟨validateLocation_coords scorer cw loc, ?_, ?_⟩
  · intro hc
    unfold createWeatherQuery at hc
    cases hv : (validateDateRange env.now request.dateRange).isValid with
    | false => simp [hv] at hc
    | true =>
      simp only [hv, Bool.not_true, Bool.false_eq_true, if_false] at hc
      cases hm : validateLocation env.scorer (env.currentWeather request.location)
          request.location with
      | nil => simp [hm] at hc
      | cons best rest =>
        simp only [hm] at hc
        cases hw : env.currentWeather
            (if mkRat 4 5 < best.confidence then best.name else request.location) with
        | error e => simp [hw] at hc
        | ok w =>
          simp only [hw, Except.ok.injEq, Prod.mk.injEq] at hc
          obtain ⟨-, hq⟩ := hc
          rw [← hq]
          exact validateLocation_coords env.scorer (env.currentWeather request.location)
            request.location best (hm ▸ List.mem_cons_self best rest)
  · intro hts hc
    unfold updateWeatherQuery at hc
    simp only [hts, if_true] at hc
    cases hm : validateLocation env2.scorer
        (env2.currentWeather (updates.location.getD ""))
        (updates.location.getD "") with
    | nil => simp [hm] at hc
    | cons best rest =>
      simp only [hm] at hc
      cases hw : env2.currentWeather
          (if mkRat 4 5 < best.confidence then best.name
           else updates.location.getD "") with
      | error e => simp [hw] at hc
      | ok w =>
        simp only [hw] at hc
        have hbest : best.coordinates = { lat := 0, lon := 0 } :=
          validateLocation_coords env2.scorer
            (env2.currentWeather (updates.location.getD ""))
            (updates.location.getD "") best (hm ▸ List.mem_cons_self best rest)
        have hfind : ∀ lu drP,
            ((db.queries.map fun r =>
                if r._id == id then
                  applyUpdate env2.now (some lu) drP updates.userNotes updates.tags r
                else r).find? (fun r => r._id == id)) = some found →
            lu.coordinates = { lat := 0, lon := 0 } →
            found.coordinates = { lat := 0, lon := 0 } := by
          intro lu drP hfound hluc
          have hmem := List.mem_of_find?_eq_some hfound
          have hkey := List.find?_some hfound
          rcases List.mem_map.mp hmem with ⟨r, hr, hfr⟩
          by_cases hid : (r._id == id) = true
          · rw [if_pos hid] at hfr
            rw [← hfr, applyUpdate_coordinates]
            exact hluc
          · rw [if_neg hid] at hfr
            rw [← hfr] at hkey
            exact absurd hkey hid
        cases hdr : updates.dateRange with
        | some d =>
          simp only [hdr] at hc
          cases hv2 : (validateDateRange env2.now d).isValid with
          | false => simp [hv2] at hc
          | true =>
            simp only [hv2, if_true] at hc
            by_cases hany : (db.queries.any fun r => r._id == id) = true
            · simp only [if_pos hany, Except.ok.injEq, Prod.mk.injEq] at hc
              obtain ⟨-, hfound⟩ := hc
              exact hfind _ _ hfound hbest
            · simp only [if_neg hany] at hc
              simp at hc
        | none =>
          simp only [hdr] at hc
          by_cases hany : (db.queries.any fun r => r._id == id) = true
          · simp only [if_pos hany, Except.ok.injEq, Prod.mk.injEq] at hc
            obtain ⟨-, hfound⟩ := hc
            exact hfind _ _ hfound hbest
          · simp only [if_neg hany] at hc
            simp at hc

def c10Match : LocationMatch :=
  { name := "London", country := "GB", state := none,
    coordinates := { lat := 0, lon := 0 }, confidence := 1 }

/-- The record `createWeatherQuery c2Env c2Db c2Request` persists. -/
def c10Created : WeatherQuery :=
  { _id := "q2", location := "London", locationNormalized := "london",
    coordinates := { lat := 0, lon := 0 }, dateRange := sampleRange,
    weatherData := sampleWeather, forecastData := some sampleForecast,
    createdAt := c1Now, updatedAt := c1Now, tags := [], userNotes := "" }

/-- The record after `updateWeatherQuery c2Env c2Db "q1" c7Updates`. -/
def c10Updated : WeatherQuery :=
  { _id := "q1", location := "Paris", locationNormalized := "london",
    coordinates := { lat := 0, lon := 0 }, dateRange := sampleRange,
    weatherData := sampleWeather, forecastData := some sampleForecast,
    createdAt := 100, updatedAt := c1Now, tags := ["trip"],
    userNotes := "pack a coat" }

/-- C10 witness: the three conjuncts applied at a concrete lookup result, a
concrete create and a concrete location update. -/
theorem C10_witness :
    c10Match.coordinates = { lat := 0, lon := 0 } ∧
    c10Created.coordinates = { lat := 0, lon := 0 } ∧
    c10Updated.coordinates = { lat := 0, lon := 0 } := by
  have h := C10_placeholder_coordinates (fun _ _ => none) (.ok sampleWeather)
    "London" c2Env c2Env c2Db
    (DB.mk (c2Db.queries ++ [c10Created]) c2Db.insights)
    (DB.mk [c10Updated] c2Db.insights) c2Request c10Created c10Updated
    "q1" c7Updates
  exact ⟨h.1 c10Match (by decide), h.2.1 (by decide), h.2.2 (by decide) (by decide)⟩
